import Mathlib

/-!
Verification development for the iterative-solver shell and trajectory-linearization
engine of the `control-toolbox` repository.

The embedded sources are:
* `ct_optcon/include/ct/optcon/solver/NLOptConSolver.h` — the `NLOptConSolver` class:
  the `solve()` loop (lines 86-97), the read accessors forwarding to `nlocBackend_`
  (lines 103-176), and the pure-virtual `configure` (line 65).
* `ct_core/include/ct/core/integration/sensitivity/Sensitivity.h` — the
  `SensitivityApproximationSettings` struct (lines 15-36) and the `Sensitivity`
  engine base class (lines 38-103).

Parts of the repository that the claims depend on but whose implementations are not
among the sources (`NLOCBackendBase`, the concrete discretization engine behind the
pure-virtual `Sensitivity::getAandB`, the body of `configure`) are modelled from the
specification; each such definition carries a doc comment starting with
`Modelled from the spec:`.
-/

namespace CT

/-- Enumeration of discretization schemes, from
`SensitivityApproximationSettings::APPROXIMATION` (Sensitivity.h lines 18-24). -/
inductive APPROXIMATION
  | FORWARD_EULER
  | BACKWARD_EULER
  | SYMPLECTIC_EULER
  | TUSTIN
  | MATRIX_EXPONENTIAL
deriving DecidableEq, Repr

/-- Embedding of `SensitivityApproximationSettings` (Sensitivity.h lines 15-36):
a discretization time-step `dt_` and a scheme `approximation_`.  The C++ `double`
is embedded as an exact rational. -/
structure SensitivityApproximationSettings where
  dt_ : ℚ
  approximation_ : APPROXIMATION
deriving DecidableEq, Repr

/-- Model of a raw C++ pointer value: either `nullptr` (`none`) or an address
(`some a`).  Only the pointer value itself is tracked, matching the non-owning
reference semantics of the source. -/
abbrev Ptr : Type := Option Nat

/-- Error taxonomy of the system (spec section 7), together with C++ runtime errors
thrown with an explicit message (as in `Sensitivity::clone`). -/
inductive CTError
  | runtimeError (msg : String)
  | configurationError
  | unsupportedApproximationError
  | singularMatrixError
  | notInitializedError
deriving DecidableEq, Repr

/-- State of a `Sensitivity` engine instance.  The fields `xSubstep_` and `uSubstep_`
are the two data members of the `Sensitivity` base class (Sensitivity.h lines 100-101);
`linearSystem_`, `dt_` and `approximation_` model the state the spec attributes to the
LinearizationEngine ("current step size, chosen strategy, and non-owning references",
spec section 2), held by the derived engine class. -/
structure SensitivityState where
  xSubstep_ : Ptr
  uSubstep_ : Ptr
  linearSystem_ : Ptr
  dt_ : ℚ
  approximation_ : APPROXIMATION
deriving DecidableEq, Repr

/-- Embedding of `Sensitivity::clone` (Sensitivity.h lines 54-57):
`throw std::runtime_error("clone not implemented for Sensitivity");`
The throw is modelled as returning `Except.error`; the function never produces a copy. -/
def Sensitivity.clone (_s : SensitivityState) : Except CTError SensitivityState :=
  Except.error (CTError.runtimeError "clone not implemented for Sensitivity")

/-- Embedding of `Sensitivity::setApproximation` (Sensitivity.h line 65):
`virtual void setApproximation(const SensitivityApproximationSettings::APPROXIMATION& approx) {}`
The default body is empty: the call returns normally (modelled `Except.ok`) and leaves
the engine state untouched, whatever scheme is requested. -/
def Sensitivity.setApproximation (s : SensitivityState) (_approx : APPROXIMATION) :
    Except CTError SensitivityState :=
  Except.ok s

/-- Embedding of `Sensitivity::setSubstepTrajectoryReference` (Sensitivity.h lines 72-78):
assigns the two pointer arguments to the members `xSubstep_` and `uSubstep_`, nothing else. -/
def Sensitivity.setSubstepTrajectoryReference (s : SensitivityState) (xSubstep uSubstep : Ptr) :
    SensitivityState :=
  { s with xSubstep_ := xSubstep, uSubstep_ := uSubstep }

/-- Calls the solver makes into the Backend during `solve()`. -/
inductive BackendCall
  | prepare
  | finishSolve
deriving DecidableEq, Repr

/-- Embedding of the loop body of `NLOptConSolver::solve` (NLOptConSolver.h lines 86-97):

```cpp
bool solved = false;
while (!solved) { prepare(); solved = finishSolve(); }
return solved;
```

The Backend is modelled by the sequence `finishSolve : Nat → Bool` of results of its
successive `finishSolve()` calls (`k` counts the calls made so far), `trace` records the
Backend calls issued so far, and `fuel` bounds how many loop iterations are unfolded.
`some (trace, r)` means the loop exited, the function returned `r`, and `trace` is the
full call sequence; `none` means the loop is still running after `fuel` iterations. -/
def NLOptConSolver.solveAux (finishSolve : Nat → Bool) :
    Nat → Nat → Bool → List BackendCall → Option (List BackendCall × Bool)
  | 0, _, solved, trace => if solved then some (trace, solved) else none
  | fuel + 1, k, solved, trace =>
    if solved then some (trace, solved)
    else
      NLOptConSolver.solveAux finishSolve fuel (k + 1) (finishSolve k)
        (trace ++ [BackendCall.prepare, BackendCall.finishSolve])

/-- Embedding of `NLOptConSolver::solve` (NLOptConSolver.h lines 86-97): run the
`while (!solved)` loop from `solved = false` with an empty call trace. -/
def NLOptConSolver.solve (finishSolve : Nat → Bool) (fuel : Nat) :
    Option (List BackendCall × Bool) :=
  NLOptConSolver.solveAux finishSolve fuel 0 false []

/-- Call trace consisting of `k` consecutive `prepare(); finishSolve();` pairs. -/
def pairTrace : Nat → List BackendCall
  | 0 => []
  | k + 1 => [BackendCall.prepare, BackendCall.finishSolve] ++ pairTrace k

/-- Concrete engine state used to exhibit the behaviour of the default
`setApproximation`. -/
def engineState0 : SensitivityState :=
  { xSubstep_ := none, uSubstep_ := none, linearSystem_ := none,
    dt_ := 1, approximation_ := APPROXIMATION.FORWARD_EULER }

/-- Solver settings as the spec describes them (sections 4.1 and 6): a time step, the
dimensions the settings were built for, and a discretization scheme.  Embeds the
`SETTINGS` template parameter of `NLOptConSolver`. -/
structure NLOptConSettings where
  dt : ℚ
  stateDim : Nat
  controlDim : Nat
  approximation : APPROXIMATION
deriving DecidableEq, Repr

/-- One iterate of the Backend: the data behind the six read accessors of
`NLOptConSolver` (NLOptConSolver.h lines 103-176).  Vectors are embedded as rational
lists; the concrete payload types are irrelevant to the accessor contract. -/
structure BackendIterate where
  policy : List (List ℚ)
  stateTrajectory : List (List ℚ)
  controlTrajectory : List (List ℚ)
  timeArray : List ℚ
  timeHorizon : ℚ
  cost : ℚ
deriving DecidableEq, Repr

/-- State of the `NLOCBackendBase` object held through `nlocBackend_`
(NLOptConSolver.h line 180): the latest successful iterate, if any, and the settings
propagated to it by `configure`. -/
structure NLOCBackendState where
  latestIterate : Option BackendIterate
  settings : Option NLOptConSettings
deriving DecidableEq, Repr

/-- State of an `NLOptConSolver` object: the problem dimensions (template parameters
`STATE_DIM`/`CONTROL_DIM`), the stored settings, and the backend it forwards to. -/
structure NLOptConSolverState where
  STATE_DIM : Nat
  CONTROL_DIM : Nat
  settings : Option NLOptConSettings
  nlocBackend_ : NLOCBackendState
deriving DecidableEq, Repr

/-- Freshly constructed solver (`NLOptConSolver() {}`, NLOptConSolver.h line 58) over a
fresh backend: no settings stored or propagated, no iterate yet. -/
def NLOptConSolver.initState (sd cd : Nat) : NLOptConSolverState :=
  { STATE_DIM := sd, CONTROL_DIM := cd, settings := none,
    nlocBackend_ := { latestIterate := none, settings := none } }

/-- Modelled from the spec: `NLOptConSolver::configure` is pure virtual
(NLOptConSolver.h line 65) and no implementation is among the sources.  Spec
section 4.1: "validates and stores settings, propagates to Backend; fails with a
configuration error if dt ≤ 0 or dimensions mismatch." -/
def NLOptConSolver.configure (s : NLOptConSolverState) (st : NLOptConSettings) :
    Except CTError NLOptConSolverState :=
  if st.dt ≤ 0 ∨ st.stateDim ≠ s.STATE_DIM ∨ st.controlDim ≠ s.CONTROL_DIM then
    Except.error CTError.configurationError
  else
    Except.ok { s with settings := some st,
                       nlocBackend_ := { s.nlocBackend_ with settings := some st } }

/-- Runs a sequence of `configure` requests; a failed request leaves the state as it
was (the C++ exception propagates past the call without mutating the object). -/
def NLOptConSolver.configureRuns (s : NLOptConSolverState) :
    List NLOptConSettings → NLOptConSolverState
  | [] => s
  | st :: rest =>
    match NLOptConSolver.configure s st with
    | Except.ok s2 => NLOptConSolver.configureRuns s2 rest
    | Except.error _ => NLOptConSolver.configureRuns s rest

/-- Modelled from the spec: the read accessors of `NLOCBackendBase` are not among the
sources; spec section 4.1 says the accessors "fail with a not-initialized error if
called before any successful iteration" and otherwise read the latest iterate. -/
def NLOCBackend.getSolution (b : NLOCBackendState) : Except CTError (List (List ℚ)) :=
  match b.latestIterate with
  | none => Except.error CTError.notInitializedError
  | some it => Except.ok it.policy

/-- Modelled from the spec: `NLOCBackendBase::getStateTrajectory`, as for
`NLOCBackend.getSolution`. -/
def NLOCBackend.getStateTrajectory (b : NLOCBackendState) : Except CTError (List (List ℚ)) :=
  match b.latestIterate with
  | none => Except.error CTError.notInitializedError
  | some it => Except.ok it.stateTrajectory

/-- Modelled from the spec: `NLOCBackendBase::getControlTrajectory`, as for
`NLOCBackend.getSolution`. -/
def NLOCBackend.getControlTrajectory (b : NLOCBackendState) : Except CTError (List (List ℚ)) :=
  match b.latestIterate with
  | none => Except.error CTError.notInitializedError
  | some it => Except.ok it.controlTrajectory

/-- Modelled from the spec: `NLOCBackendBase::getTimeArray`, as for
`NLOCBackend.getSolution`. -/
def NLOCBackend.getTimeArray (b : NLOCBackendState) : Except CTError (List ℚ) :=
  match b.latestIterate with
  | none => Except.error CTError.notInitializedError
  | some it => Except.ok it.timeArray

/-- Modelled from the spec: `NLOCBackendBase::getTimeHorizon`, as for
`NLOCBackend.getSolution`. -/
def NLOCBackend.getTimeHorizon (b : NLOCBackendState) : Except CTError ℚ :=
  match b.latestIterate with
  | none => Except.error CTError.notInitializedError
  | some it => Except.ok it.timeHorizon

/-- Modelled from the spec: `NLOCBackendBase::getCost`, as for
`NLOCBackend.getSolution`. -/
def NLOCBackend.getCost (b : NLOCBackendState) : Except CTError ℚ :=
  match b.latestIterate with
  | none => Except.error CTError.notInitializedError
  | some it => Except.ok it.cost

/-- Embedding of `NLOptConSolver::getSolution` (NLOptConSolver.h line 103):
`return nlocBackend_->getSolution();`. -/
def NLOptConSolver.getSolution (s : NLOptConSolverState) : Except CTError (List (List ℚ)) :=
  NLOCBackend.getSolution s.nlocBackend_

/-- Embedding of `NLOptConSolver::getStateTrajectory` (NLOptConSolver.h line 109). -/
def NLOptConSolver.getStateTrajectory (s : NLOptConSolverState) :
    Except CTError (List (List ℚ)) :=
  NLOCBackend.getStateTrajectory s.nlocBackend_

/-- Embedding of `NLOptConSolver::getControlTrajectory` (NLOptConSolver.h line 115). -/
def NLOptConSolver.getControlTrajectory (s : NLOptConSolverState) :
    Except CTError (List (List ℚ)) :=
  NLOCBackend.getControlTrajectory s.nlocBackend_

/-- Embedding of `NLOptConSolver::getTimeArray` (NLOptConSolver.h line 121). -/
def NLOptConSolver.getTimeArray (s : NLOptConSolverState) : Except CTError (List ℚ) :=
  NLOCBackend.getTimeArray s.nlocBackend_

/-- Embedding of `NLOptConSolver::getTimeHorizon` (NLOptConSolver.h line 129). -/
def NLOptConSolver.getTimeHorizon (s : NLOptConSolverState) : Except CTError ℚ :=
  NLOCBackend.getTimeHorizon s.nlocBackend_

/-- Embedding of `NLOptConSolver::getCost` (NLOptConSolver.h lines 173-176). -/
def NLOptConSolver.getCost (s : NLOptConSolverState) : Except CTError ℚ :=
  NLOCBackend.getCost s.nlocBackend_

/-- Settings with a non-positive time step, used as a concrete rejected input. -/
def settingsBadDt : NLOptConSettings :=
  { dt := 0, stateDim := 2, controlDim := 1, approximation := APPROXIMATION.FORWARD_EULER }

/-- Settings accepted by a solver of dimensions 2 and 1. -/
def settingsGood : NLOptConSettings :=
  { dt := 1 / 10, stateDim := 2, controlDim := 1, approximation := APPROXIMATION.FORWARD_EULER }

/-- Concrete backend iterate used to exercise the read accessors. -/
def iterate0 : BackendIterate :=
  { policy := [[1]], stateTrajectory := [[0], [1]], controlTrajectory := [[1]],
    timeArray := [0, 1], timeHorizon := 1, cost := 5 }

/-- Modelled from the spec: `Sensitivity::getAandB` is pure virtual (Sensitivity.h
lines 89-97) and the concrete discretization engine implementing it is not among the
sources.  The numeric core it must compute is the ApproximationStrategy table of spec
section 4.3 — each scheme a pure function of (A_c, B_c, dt) — with the
SingularMatrixError behaviour of spec section 7:

* `FORWARD_EULER`:      A_d = I + dt·A_c, B_d = dt·B_c;
* `BACKWARD_EULER`:     A_d = (I − dt·A_c)⁻¹, B_d = A_d·dt·B_c; SingularMatrixError
  when I − dt·A_c is exactly singular;
* `SYMPLECTIC_EULER`:   the spec leaves the structure-split update open (section 9) and
  prescribes fallback to ForwardEuler semantics when the separable structure is absent
  (section 4.3), as it is for a plain (A_c, B_c) pair;
* `TUSTIN`:             A_d = (I − dt/2·A_c)⁻¹(I + dt/2·A_c),
  B_d = (I − dt/2·A_c)⁻¹·dt·B_c; SingularMatrixError when I − dt/2·A_c is singular;
* `MATRIX_EXPONENTIAL`: A_d = exp(dt·A_c) and B_d = A_c⁻¹(A_d − I)·B_c, or both read
  off the augmented-matrix exponential exp(dt·[[A_c,B_c],[0,0]]) when A_c is singular.

The C++ `double` scalars are embedded as exact reals. -/
noncomputable def getAandB {n m : ℕ} (approx : APPROXIMATION) (dt : ℝ)
    (Ac : Matrix (Fin n) (Fin n) ℝ) (Bc : Matrix (Fin n) (Fin m) ℝ) :
    Except CTError (Matrix (Fin n) (Fin n) ℝ × Matrix (Fin n) (Fin m) ℝ) :=
  match approx with
  | APPROXIMATION.FORWARD_EULER => Except.ok (1 + dt • Ac, dt • Bc)
  | APPROXIMATION.BACKWARD_EULER =>
      if (1 - dt • Ac).det = 0 then Except.error CTError.singularMatrixError
      else Except.ok ((1 - dt • Ac)⁻¹, (1 - dt • Ac)⁻¹ * (dt • Bc))
  | APPROXIMATION.SYMPLECTIC_EULER => Except.ok (1 + dt • Ac, dt • Bc)
  | APPROXIMATION.TUSTIN =>
      if (1 - (dt / 2) • Ac).det = 0 then Except.error CTError.singularMatrixError
      else Except.ok ((1 - (dt / 2) • Ac)⁻¹ * (1 + (dt / 2) • Ac),
                      (1 - (dt / 2) • Ac)⁻¹ * (dt • Bc))
  | APPROXIMATION.MATRIX_EXPONENTIAL =>
      if Ac.det = 0 then
        Except.ok ((NormedSpace.exp ℝ (dt • (Matrix.fromBlocks Ac Bc 0 0
                      : Matrix (Fin n ⊕ Fin m) (Fin n ⊕ Fin m) ℝ))).toBlocks₁₁,
                   (NormedSpace.exp ℝ (dt • (Matrix.fromBlocks Ac Bc 0 0
                      : Matrix (Fin n ⊕ Fin m) (Fin n ⊕ Fin m) ℝ))).toBlocks₁₂)
      else
        Except.ok (NormedSpace.exp ℝ (dt • Ac),
                   Ac⁻¹ * (NormedSpace.exp ℝ (dt • Ac) - 1) * Bc)

/-- Continuous system matrix A_c of the spec's concrete discretization case
(spec section 8): the double integrator. -/
def c8Ac : Matrix (Fin 2) (Fin 2) ℝ := !![0, 1; 0, 0]

/-- Continuous input matrix B_c of the spec's concrete discretization case. -/
def c8Bc : Matrix (Fin 2) (Fin 1) ℝ := !![0; 1]

theorem solveAux_true (fs : Nat → Bool) (fuel k : Nat) (tr : List BackendCall) :
    NLOptConSolver.solveAux fs fuel k true tr = some (tr, true) := by
  cases fuel <;> simp [NLOptConSolver.solveAux]

theorem solveAux_never_false (fuel : Nat) :
    ∀ (k : Nat) (tr : List BackendCall),
      NLOptConSolver.solveAux (fun _ => false) fuel k false tr = none := by
  induction fuel with
  | zero => intro k tr; simp [NLOptConSolver.solveAux]
  | succ fuel ih => intro k tr; simpa [NLOptConSolver.solveAux] using ih (k + 1) _

theorem solveAux_some_inv (fs : Nat → Bool) :
    ∀ (fuel k : Nat) (tr tr' : List BackendCall) (r : Bool),
      NLOptConSolver.solveAux fs fuel k false tr = some (tr', r) →
      r = true ∧ ∃ j : Nat, tr' = tr ++ pairTrace (j + 1) ∧ fs (k + j) = true := by
  intro fuel
  induction fuel with
  | zero =>
    intro k tr tr' r h
    simp [NLOptConSolver.solveAux] at h
  | succ fuel ih =>
    intro k tr tr' r h
    simp only [NLOptConSolver.solveAux, Bool.false_eq_true, if_false] at h
    cases hfk : fs k with
    | true =>
      rw [hfk, solveAux_true] at h
      refine ⟨by injection h with h1; exact (Prod.mk.injEq _ _ _ _ ▸ h1).2.symm ▸ rfl, 0, ?_, ?_⟩
      · injection h with h1
        have h2 := (Prod.mk.injEq _ _ _ _ ▸ h1).1
        simp [pairTrace, ← h2]
      · simpa using hfk
    | false =>
      rw [hfk] at h
      obtain ⟨hr, j, htr, hfs⟩ := ih (k + 1) (tr ++ [BackendCall.prepare, BackendCall.finishSolve]) tr' r h
      refine ⟨hr, j + 1, ?_, ?_⟩
      · rw [htr]
        simp [pairTrace, List.append_assoc]
      · have : k + 1 + j = k + (j + 1) := by omega
        rw [← this]
        exact hfs

/-- Claim C1: the `solve()` implementation at NLOptConSolver.h lines 86-97 is a bare
`while (!solved)` loop.  For a Backend whose `finishSolve()` never reports convergence,
the loop never terminates — however many iterations are unfolded, it is still running —
so `solve()` can never surface a `Failed` outcome (indeed `return solved` is reachable
only with `solved == true`).  This contradicts the claim (and the code's own doc
comment "@return true if solve succeeded, false otherwise"). -/
theorem solve_never_converging_diverges (fuel : Nat) :
    NLOptConSolver.solve (fun _ => false) fuel = none :=
  solveAux_never_false fuel 0 []

/-- Claim C2: if the Backend reports convergence on its very first `finishSolve()`,
`solve()` performs exactly one `prepare()` followed by exactly one `finishSolve()`
(call trace `pairTrace 1 = [prepare, finishSolve]`) and returns `true`; and whenever
`solve()` returns at all, its result is `true` and the last `finishSolve()` of its
call trace (the `k`-th, `k ≥ 1`, with trace `pairTrace k`) reported convergence. -/
theorem solve_first_convergence_one_pair :
    (∀ (fs : Nat → Bool) (fuel : Nat), fs 0 = true → 1 ≤ fuel →
        NLOptConSolver.solve fs fuel = some (pairTrace 1, true))
    ∧ (∀ (fs : Nat → Bool) (fuel : Nat) (tr : List BackendCall) (r : Bool),
        NLOptConSolver.solve fs fuel = some (tr, r) →
        r = true ∧ ∃ k : Nat, 1 ≤ k ∧ tr = pairTrace k ∧ fs (k - 1) = true) := by
  constructor
  · intro fs fuel h0 hfuel
    obtain ⟨fuel', rfl⟩ : ∃ fuel', fuel = fuel' + 1 := ⟨fuel - 1, by omega⟩
    show NLOptConSolver.solveAux fs (fuel' + 1) 0 false [] = some (pairTrace 1, true)
    simp only [NLOptConSolver.solveAux, Bool.false_eq_true, if_false, h0]
    rw [solveAux_true]
    simp [pairTrace]
  · intro fs fuel tr r h
    obtain ⟨hr, j, htr, hfs⟩ := solveAux_some_inv fs fuel 0 [] tr r h
    exact ⟨hr, j + 1, by omega, by simpa using htr, by simpa using hfs⟩

/-- Witness for C2: the Backend that always converges makes `solve()` with one unit of
fuel return `true` after the single call pair `[prepare, finishSolve]`. -/
theorem solve_first_convergence_one_pair_witness :
    NLOptConSolver.solve (fun _ => true) 1 = some (pairTrace 1, true) :=
  solve_first_convergence_one_pair.1 (fun _ => true) 1 rfl (le_refl 1)

/-- Counterexample to claim C3: the `setApproximation` of Sensitivity.h line 65 has an
empty default body.  Requesting `TUSTIN` on an engine whose active scheme is
`FORWARD_EULER` returns normally (no failure is signalled) and leaves the engine state
— in particular the active scheme — unchanged.  So whether or not `TUSTIN` counts as
implemented by this engine, the claim fails: an unsupported request does not fail
explicitly, and a supported request does not switch the active scheme. -/
theorem setApproximation_cex :
    Sensitivity.setApproximation engineState0 APPROXIMATION.TUSTIN = Except.ok engineState0
    ∧ engineState0.approximation_ ≠ APPROXIMATION.TUSTIN :=
  ⟨rfl, by decide⟩

/-- Claim C3 (amended): the base-class `setApproximation` (Sensitivity.h line 65)
accepts every scheme and returns with the engine state unchanged: it neither fails on
any scheme nor switches the active scheme; scheme handling is left entirely to derived
engine classes. -/
theorem setApproximation_base_noop (s : SensitivityState) (approx : APPROXIMATION) :
    Sensitivity.setApproximation s approx = Except.ok s := rfl

/-- Claim C9: `setSubstepTrajectoryReference` (Sensitivity.h lines 72-78) is total for
arbitrary pointer arguments — including null (`none`) — stores exactly the two given
pointer values in `xSubstep_` and `uSubstep_`, and changes no other engine state; no
validation, copy or resize of the referenced buffers takes place. -/
theorem setSubstepTrajectoryReference_frame (s : SensitivityState) (x u : Ptr) :
    (Sensitivity.setSubstepTrajectoryReference s x u).xSubstep_ = x
    ∧ (Sensitivity.setSubstepTrajectoryReference s x u).uSubstep_ = u
    ∧ (Sensitivity.setSubstepTrajectoryReference s x u).linearSystem_ = s.linearSystem_
    ∧ (Sensitivity.setSubstepTrajectoryReference s x u).dt_ = s.dt_
    ∧ (Sensitivity.setSubstepTrajectoryReference s x u).approximation_ = s.approximation_ :=
  ⟨rfl, rfl, rfl, rfl, rfl⟩

/-- Claim C10: `Sensitivity::clone` (Sensitivity.h lines 54-57) unconditionally throws
`std::runtime_error("clone not implemented for Sensitivity")`, in every engine state;
it never terminates normally with a copy. -/
theorem clone_always_throws (s : SensitivityState) :
    Sensitivity.clone s
      = Except.error (CTError.runtimeError "clone not implemented for Sensitivity") := rfl

theorem configureRuns_dt_invariant (s : NLOptConSolverState)
    (hs : ∀ st2 : NLOptConSettings, s.settings = some st2 → 0 < st2.dt)
    (hb : ∀ st2 : NLOptConSettings, s.nlocBackend_.settings = some st2 → 0 < st2.dt) :
    ∀ reqs : List NLOptConSettings,
      (∀ st2, (NLOptConSolver.configureRuns s reqs).settings = some st2 → 0 < st2.dt)
      ∧ (∀ st2, (NLOptConSolver.configureRuns s reqs).nlocBackend_.settings = some st2 →
          0 < st2.dt) := by
  intro reqs
  induction reqs generalizing s with
  | nil => exact ⟨hs, hb⟩
  | cons st rest ih =>
    simp only [NLOptConSolver.configureRuns]
    unfold NLOptConSolver.configure
    by_cases hcond : st.dt ≤ 0 ∨ st.stateDim ≠ s.STATE_DIM ∨ st.controlDim ≠ s.CONTROL_DIM
    · rw [if_pos hcond]
      exact ih s hs hb
    · rw [if_neg hcond]
      have hdt : 0 < st.dt := by
        push_neg at hcond
        exact hcond.1
      refine ih _ ?_ ?_
      · intro st2 h2
        simp only at h2
        cases h2
        exact hdt
      · intro st2 h2
        simp only at h2
        cases h2
        exact hdt

/-- Claim C4: `configure` fails with a configuration error exactly when
`dt ≤ 0` or the settings' dimensions mismatch the problem's `STATE_DIM`/`CONTROL_DIM`;
on success it stores the settings and propagates the same settings to the Backend
(leaving the dimensions untouched); and starting from a freshly constructed solver,
after any sequence of `configure` requests, neither the stored nor the propagated
settings ever hold a non-positive `dt`. -/
theorem configure_validates :
    (∀ (s : NLOptConSolverState) (st : NLOptConSettings),
        NLOptConSolver.configure s st = Except.error CTError.configurationError ↔
          (st.dt ≤ 0 ∨ st.stateDim ≠ s.STATE_DIM ∨ st.controlDim ≠ s.CONTROL_DIM))
    ∧ (∀ (s : NLOptConSolverState) (st : NLOptConSettings) (s2 : NLOptConSolverState),
        NLOptConSolver.configure s st = Except.ok s2 →
          s2.settings = some st ∧ s2.nlocBackend_.settings = some st ∧ 0 < st.dt
          ∧ s2.STATE_DIM = s.STATE_DIM ∧ s2.CONTROL_DIM = s.CONTROL_DIM)
    ∧ (∀ (sd cd : Nat) (reqs : List NLOptConSettings) (st2 : NLOptConSettings),
        ((NLOptConSolver.configureRuns (NLOptConSolver.initState sd cd) reqs).settings
            = some st2
          ∨ (NLOptConSolver.configureRuns
              (NLOptConSolver.initState sd cd) reqs).nlocBackend_.settings = some st2) →
          0 < st2.dt) := by
  refine ⟨?_, ?_, ?_⟩
  · intro s st
    unfold NLOptConSolver.configure
    constructor
    · intro h
      by_contra hcond
      rw [if_neg hcond] at h
      exact Except.noConfusion h
    · intro hcond
      rw [if_pos hcond]
  · intro s st s2 h
    unfold NLOptConSolver.configure at h
    by_cases hcond : st.dt ≤ 0 ∨ st.stateDim ≠ s.STATE_DIM ∨ st.controlDim ≠ s.CONTROL_DIM
    · rw [if_pos hcond] at h
      exact Except.noConfusion h
    · rw [if_neg hcond] at h
      injection h with h2
      push_neg at hcond
      subst h2
      exact ⟨rfl, rfl, hcond.1, rfl, rfl⟩
  · intro sd cd reqs st2 h
    have hrun := configureRuns_dt_invariant (NLOptConSolver.initState sd cd)
      (fun _ h2 => Option.noConfusion h2) (fun _ h2 => Option.noConfusion h2) reqs
    cases h with
    | inl h2 => exact hrun.1 st2 h2
    | inr h2 => exact hrun.2 st2 h2

/-- Witness for C4: a request with `dt = 0` on a fresh 2-state, 1-control solver is
rejected with the configuration error, and the good settings with `dt = 1/10` are
accepted and both stored and propagated. -/
theorem configure_validates_witness :
    NLOptConSolver.configure (NLOptConSolver.initState 2 1) settingsBadDt
        = Except.error CTError.configurationError
    ∧ ∀ s2, NLOptConSolver.configure (NLOptConSolver.initState 2 1) settingsGood
        = Except.ok s2 → s2.settings = some settingsGood :=
  ⟨(configure_validates.1 (NLOptConSolver.initState 2 1) settingsBadDt).mpr
      (Or.inl (le_of_eq rfl)),
   fun s2 h =>
    (configure_validates.2.1 (NLOptConSolver.initState 2 1) settingsGood s2 h).1⟩

/-- Claim C5: each of the six read accessors — `getSolution`, `getStateTrajectory`,
`getControlTrajectory`, `getTimeArray`, `getTimeHorizon`, `getCost`
(NLOptConSolver.h lines 103-176, all forwarding to the Backend) — fails with the
not-initialized error when no successful iteration has completed yet, and returns the
corresponding datum of the latest iterate otherwise. -/
theorem accessors_latest_iterate :
    (∀ s : NLOptConSolverState, s.nlocBackend_.latestIterate = none →
        NLOptConSolver.getSolution s = Except.error CTError.notInitializedError
        ∧ NLOptConSolver.getStateTrajectory s = Except.error CTError.notInitializedError
        ∧ NLOptConSolver.getControlTrajectory s = Except.error CTError.notInitializedError
        ∧ NLOptConSolver.getTimeArray s = Except.error CTError.notInitializedError
        ∧ NLOptConSolver.getTimeHorizon s = Except.error CTError.notInitializedError
        ∧ NLOptConSolver.getCost s = Except.error CTError.notInitializedError)
    ∧ (∀ (s : NLOptConSolverState) (it : BackendIterate),
        s.nlocBackend_.latestIterate = some it →
        NLOptConSolver.getSolution s = Except.ok it.policy
        ∧ NLOptConSolver.getStateTrajectory s = Except.ok it.stateTrajectory
        ∧ NLOptConSolver.getControlTrajectory s = Except.ok it.controlTrajectory
        ∧ NLOptConSolver.getTimeArray s = Except.ok it.timeArray
        ∧ NLOptConSolver.getTimeHorizon s = Except.ok it.timeHorizon
        ∧ NLOptConSolver.getCost s = Except.ok it.cost) := by
  constructor
  · intro s h
    refine ⟨?_, ?_, ?_, ?_, ?_, ?_⟩ <;>
      simp [NLOptConSolver.getSolution, NLOptConSolver.getStateTrajectory,
        NLOptConSolver.getControlTrajectory, NLOptConSolver.getTimeArray,
        NLOptConSolver.getTimeHorizon, NLOptConSolver.getCost,
        NLOCBackend.getSolution, NLOCBackend.getStateTrajectory,
        NLOCBackend.getControlTrajectory, NLOCBackend.getTimeArray,
        NLOCBackend.getTimeHorizon, NLOCBackend.getCost, h]
  · intro s it h
    refine ⟨?_, ?_, ?_, ?_, ?_, ?_⟩ <;>
      simp [NLOptConSolver.getSolution, NLOptConSolver.getStateTrajectory,
        NLOptConSolver.getControlTrajectory, NLOptConSolver.getTimeArray,
        NLOptConSolver.getTimeHorizon, NLOptConSolver.getCost,
        NLOCBackend.getSolution, NLOCBackend.getStateTrajectory,
        NLOCBackend.getControlTrajectory, NLOCBackend.getTimeArray,
        NLOCBackend.getTimeHorizon, NLOCBackend.getCost, h]

/-- Witness for C5: on a fresh solver every accessor reports not-initialized, and once
the backend holds the iterate `iterate0` the accessors return its data, e.g. the cost 5. -/
theorem accessors_latest_iterate_witness :
    NLOptConSolver.getCost (NLOptConSolver.initState 2 1)
        = Except.error CTError.notInitializedError
    ∧ NLOptConSolver.getCost
        { STATE_DIM := 2, CONTROL_DIM := 1, settings := none,
          nlocBackend_ := { latestIterate := some iterate0, settings := none } }
        = Except.ok (5 : ℚ) :=
  ⟨(accessors_latest_iterate.1 (NLOptConSolver.initState 2 1) rfl).2.2.2.2.2,
   (accessors_latest_iterate.2
      { STATE_DIM := 2, CONTROL_DIM := 1, settings := none,
        nlocBackend_ := { latestIterate := some iterate0, settings := none } }
      iterate0 rfl).2.2.2.2.2⟩

theorem exp_eq_sum_of_pow_eq_zero {N : Type*} [Fintype N] [DecidableEq N]
    {X : Matrix N N ℝ} {k : ℕ} (h : X ^ k = 0) :
    NormedSpace.exp ℝ X = ∑ i in Finset.range k, ((i.factorial : ℝ))⁻¹ • X ^ i := by
  rw [NormedSpace.exp_eq_tsum]
  refine tsum_eq_sum ?_
  intro b hb
  have hkb : k ≤ b := by simpa using hb
  have hX : X ^ b = 0 := by
    calc X ^ b = X ^ k * X ^ (b - k) := by rw [← pow_add]; congr 1; omega
    _ = 0 := by rw [h, zero_mul]
  rw [hX, smul_zero]

/-- Claim C6: for the two implicit schemes, `getAandB` raises SingularMatrixError
exactly at its singularity — `BACKWARD_EULER` when I − dt·A_c is exactly singular,
`TUSTIN` when I − dt/2·A_c is — and the error is the call's result: no fallback (A,B)
pair is returned in its place. -/
theorem getAandB_singular_error {n m : ℕ} (dt : ℝ) (Ac : Matrix (Fin n) (Fin n) ℝ)
    (Bc : Matrix (Fin n) (Fin m) ℝ) :
    ((1 - dt • Ac).det = 0 →
        getAandB APPROXIMATION.BACKWARD_EULER dt Ac Bc
          = Except.error CTError.singularMatrixError)
    ∧ ((1 - (dt / 2) • Ac).det = 0 →
        getAandB APPROXIMATION.TUSTIN dt Ac Bc
          = Except.error CTError.singularMatrixError) :=
  ⟨fun h => by simp [getAandB, h], fun h => by simp [getAandB, h]⟩

/-- Witness for C6: with dt = 1, the scalar system A_c = [[1]] makes I − dt·A_c = [[0]]
singular for BackwardEuler, and A_c = [[2]] makes I − dt/2·A_c = [[0]] singular for
Tustin; both calls surface the singular-matrix error. -/
theorem getAandB_singular_error_witness :
    getAandB APPROXIMATION.BACKWARD_EULER 1 (!![1] : Matrix (Fin 1) (Fin 1) ℝ) !![1]
        = Except.error CTError.singularMatrixError
    ∧ getAandB APPROXIMATION.TUSTIN 1 (!![2] : Matrix (Fin 1) (Fin 1) ℝ) !![1]
        = Except.error CTError.singularMatrixError :=
  ⟨(getAandB_singular_error 1 !![1] !![1]).1 (by
      norm_num [Matrix.det_fin_one, Matrix.sub_apply, Matrix.smul_apply, Matrix.one_apply]),
   (getAandB_singular_error 1 !![2] !![1]).2 (by
      norm_num [Matrix.det_fin_one, Matrix.sub_apply, Matrix.smul_apply, Matrix.one_apply])⟩

/-- Claim C7: for every one of the five schemes and every dt > 0, discretizing the
zero continuous system A_c = 0, B_c = 0 yields exactly A_d = I and B_d = 0. -/
theorem getAandB_zero_system {n m : ℕ} (approx : APPROXIMATION) (dt : ℝ) (_hdt : 0 < dt) :
    getAandB approx dt (0 : Matrix (Fin n) (Fin n) ℝ) (0 : Matrix (Fin n) (Fin m) ℝ)
      = Except.ok (1, 0) := by
  cases approx with
  | FORWARD_EULER => simp [getAandB]
  | SYMPLECTIC_EULER => simp [getAandB]
  | BACKWARD_EULER => simp [getAandB, inv_one]
  | TUSTIN => simp [getAandB, inv_one]
  | MATRIX_EXPONENTIAL =>
    by_cases hdet : (0 : Matrix (Fin n) (Fin n) ℝ).det = 0
    · simp only [getAandB, hdet, if_true]
      rw [Matrix.fromBlocks_zero, smul_zero, NormedSpace.exp_zero,
        ← Matrix.fromBlocks_one, Matrix.toBlocks_fromBlocks₁₁, Matrix.toBlocks_fromBlocks₁₂]
    · simp [getAandB, hdet, NormedSpace.exp_zero]

/-- Witness for C7: the MatrixExponential scheme at dt = 1 on the zero 2-state,
1-control system returns (I, 0). -/
theorem getAandB_zero_system_witness :
    (0 : ℝ) < 1
    ∧ getAandB APPROXIMATION.MATRIX_EXPONENTIAL 1 (0 : Matrix (Fin 2) (Fin 2) ℝ)
        (0 : Matrix (Fin 2) (Fin 1) ℝ) = Except.ok (1, 0) :=
  ⟨one_pos, getAandB_zero_system APPROXIMATION.MATRIX_EXPONENTIAL 1 one_pos⟩

theorem c8Ac_det_zero : c8Ac.det = 0 := by
  simp [c8Ac, Matrix.det_fin_two_of]

theorem c8Ac_mul_c8Ac : c8Ac * c8Ac = 0 := by
  ext i j
  fin_cases i <;> fin_cases j <;>
    simp [c8Ac, Matrix.mul_apply, Fin.sum_univ_two]

theorem c8Ac_mul_c8Bc : c8Ac * c8Bc = !![1; 0] := by
  ext i j
  fin_cases i <;> fin_cases j <;>
    simp [c8Ac, c8Bc, Matrix.mul_apply, Fin.sum_univ_two]

theorem c8_one_add_smul_Ac :
    (1 : Matrix (Fin 2) (Fin 2) ℝ) + (1 / 10 : ℝ) • c8Ac = !![1, 1 / 10; 0, 1] := by
  ext i j
  fin_cases i <;> fin_cases j <;>
    simp [c8Ac, Matrix.one_apply]

theorem c8_smul_Bc : (1 / 10 : ℝ) • c8Bc = !![0; 1 / 10] := by
  ext i j
  fin_cases i <;> fin_cases j <;> simp [c8Bc]

theorem c8_smul_fromBlocks :
    ((1 / 10 : ℝ) • Matrix.fromBlocks c8Ac c8Bc 0 0
        : Matrix (Fin 2 ⊕ Fin 1) (Fin 2 ⊕ Fin 1) ℝ)
      = Matrix.fromBlocks ((1 / 10 : ℝ) • c8Ac) ((1 / 10 : ℝ) • c8Bc) 0 0 := by
  rw [Matrix.fromBlocks_smul]
  simp

theorem c8_Ap_mul_Ap : ((1 / 10 : ℝ) • c8Ac) * ((1 / 10 : ℝ) • c8Ac) = 0 := by
  rw [Matrix.smul_mul, Matrix.mul_smul, c8Ac_mul_c8Ac]
  simp

theorem c8_Ap_mul_Bp : ((1 / 10 : ℝ) • c8Ac) * ((1 / 10 : ℝ) • c8Bc) = !![1 / 100; 0] := by
  rw [Matrix.smul_mul, Matrix.mul_smul, c8Ac_mul_c8Bc]
  ext i j
  fin_cases i <;> fin_cases j <;> simp <;> norm_num

theorem c8_blocks_sq :
    (Matrix.fromBlocks ((1 / 10 : ℝ) • c8Ac) ((1 / 10 : ℝ) • c8Bc) 0 0
        : Matrix (Fin 2 ⊕ Fin 1) (Fin 2 ⊕ Fin 1) ℝ) ^ 2
      = Matrix.fromBlocks 0 (!![1 / 100; 0]) 0 0 := by
  rw [sq, Matrix.fromBlocks_multiply, c8_Ap_mul_Ap, c8_Ap_mul_Bp]
  simp

theorem c8_blocks_cube :
    (Matrix.fromBlocks ((1 / 10 : ℝ) • c8Ac) ((1 / 10 : ℝ) • c8Bc) 0 0
        : Matrix (Fin 2 ⊕ Fin 1) (Fin 2 ⊕ Fin 1) ℝ) ^ 3
      = 0 := by
  rw [pow_succ, c8_blocks_sq, Matrix.fromBlocks_multiply]
  simp [← Matrix.fromBlocks_zero]

theorem c8_blocks_exp :
    NormedSpace.exp ℝ
        (Matrix.fromBlocks ((1 / 10 : ℝ) • c8Ac) ((1 / 10 : ℝ) • c8Bc) 0 0
          : Matrix (Fin 2 ⊕ Fin 1) (Fin 2 ⊕ Fin 1) ℝ)
      = Matrix.fromBlocks (!![1, 1 / 10; 0, 1]) (!![1 / 200; 1 / 10]) 0 1 := by
  rw [exp_eq_sum_of_pow_eq_zero c8_blocks_cube]
  rw [Finset.sum_range_succ, Finset.sum_range_succ, Finset.sum_range_one]
  rw [c8_blocks_sq, pow_zero, pow_one]
  ext i j
  rcases i with i | i <;> rcases j with j | j <;> fin_cases i <;> fin_cases j <;>
    simp [c8Ac, c8Bc, Matrix.one_apply, Nat.factorial] <;> norm_num

theorem c8_matrixExponential_eval :
    getAandB APPROXIMATION.MATRIX_EXPONENTIAL (1 / 10) c8Ac c8Bc
      = Except.ok (!![1, 1 / 10; 0, 1], !![1 / 200; 1 / 10]) := by
  simp only [getAandB, c8Ac_det_zero, if_true]
  rw [c8_smul_fromBlocks, c8_blocks_exp, Matrix.toBlocks_fromBlocks₁₁,
    Matrix.toBlocks_fromBlocks₁₂]

theorem c8_forwardEuler_eval :
    getAandB APPROXIMATION.FORWARD_EULER (1 / 10) c8Ac c8Bc
      = Except.ok (!![1, 1 / 10; 0, 1], !![0; 1 / 10]) := by
  simp only [getAandB]
  rw [c8_one_add_smul_Ac, c8_smul_Bc]

/-- Counterexample to claim C8: at A_c = [[0,1],[0,0]], B_c = [[0],[1]], dt = 1/10, the
MatrixExponential scheme yields B_d = [[1/200],[1/10]] = [[0.005],[0.1]] (the exact
value ∫₀^dt e^{A_c s}B_c ds, via the augmented-matrix exponential, since A_c is
singular), which differs from the B_d = [[0],[0.1]] that the claim asserts both schemes
produce, so ForwardEuler and MatrixExponential do not produce identical results here. -/
theorem c8_matrixExponential_Bd_cex :
    getAandB APPROXIMATION.MATRIX_EXPONENTIAL (1 / 10) c8Ac c8Bc
        = Except.ok (!![1, 1 / 10; 0, 1], !![1 / 200; 1 / 10])
    ∧ (!![(1 : ℝ) / 200; 1 / 10] : Matrix (Fin 2) (Fin 1) ℝ) ≠ !![0; 1 / 10] :=
  ⟨c8_matrixExponential_eval, by
    intro h
    have h2 := congrArg (fun M : Matrix (Fin 2) (Fin 1) ℝ => M 0 0) h
    norm_num at h2⟩

/-- Claim C8 (amended): for STATE_DIM = 2, CONTROL_DIM = 1, A_c = [[0,1],[0,0]],
B_c = [[0],[1]] and dt = 0.1, ForwardEuler and MatrixExponential agree exactly on
A_d = [[1,0.1],[0,1]] (A_c is nilpotent, so the exponential series truncates), but
their B_d differ: ForwardEuler gives B_d = [[0],[0.1]] while MatrixExponential gives
the exact B_d = [[0.005],[0.1]]. -/
theorem c8_forwardEuler_matrixExponential :
    getAandB APPROXIMATION.FORWARD_EULER (1 / 10) c8Ac c8Bc
        = Except.ok (!![1, 1 / 10; 0, 1], !![0; 1 / 10])
    ∧ getAandB APPROXIMATION.MATRIX_EXPONENTIAL (1 / 10) c8Ac c8Bc
        = Except.ok (!![1, 1 / 10; 0, 1], !![1 / 200; 1 / 10]) :=
  ⟨c8_forwardEuler_eval, c8_matrixExponential_eval⟩

end CT
